import Mathlib

/-!
Shallow embedding of the recipe web application's data-access layer
(models `Recipe`, `Favorite`, `User`), its authorization middleware
(`requireAuth`) and the routers/controllers built on them.

The SQLite store is modelled as explicit state (`DB`): each table is a
list of rows, inserts append, `UPDATE`/`DELETE ... WHERE` map/filter the
list, `ORDER BY created_at DESC` is an insertion sort on the timestamp,
and `unixepoch()` is a logical clock `DB.now`.  JavaScript falsy
defaulting (`x || d`) is modelled per field type; `JSON.stringify` /
`JSON.parse` on the string arrays `ingredients`/`steps` round-trips and
is modelled as the identity at the storage boundary.  `randomUUID()` is
modelled by passing the generated id as an explicit argument; freshness
of the id is an explicit hypothesis where needed.
-/

namespace RecipeApp

/-- Model of the JavaScript idiom `x || null` for an optional text
field: `null`, `undefined` and the empty string (all falsy) are
coalesced to SQL `NULL` (`none`). -/
def jsTextOrNull (v : Option String) : Option String :=
  match v with
  | none => none
  | some s => if s = "" then none else some s

/-- Model of the JavaScript idiom `x || 2` for the numeric `servings`
field: `null`, `undefined` and `0` (falsy) are coalesced to `2`. -/
def jsServingsOr2 (v : Option Int) : Int :=
  match v with
  | none => 2
  | some n => if n = 0 then 2 else n

/-- Row of the `users` table. -/
structure UserRow where
  id : Nat
  name : String
  email : String
  password_hash : String
  created_at : Nat
  updated_at : Nat
deriving DecidableEq

/-- Row of the `recipes` table.  `ingredients` and `steps` are stored as
JSON text in SQLite; since `JSON.parse (JSON.stringify a) = a` for string
arrays, the stored serialized text is modelled by the array itself.
`is_scraped` is an `INTEGER` column (`0`/`1`). -/
structure RecipeRow where
  id : String
  user_id : Nat
  title : String
  time : Option String
  servings : Int
  category : Option String
  source_url : Option String
  image_url : Option String
  image_path : Option String
  ingredients : List String
  steps : List String
  notes : Option String
  is_scraped : Nat
  created_at : Nat
  updated_at : Nat
deriving DecidableEq

/-- Row of the `favorites` table (the surrogate `id` column plays no
role in any query and is omitted). -/
structure FavoriteRow where
  user_id : Nat
  recipe_id : String
  created_at : Nat
deriving DecidableEq

/-- The SQLite database state plus a logical clock standing for
`unixepoch()`. -/
structure DB where
  users : List UserRow
  recipes : List RecipeRow
  favorites : List FavoriteRow
  now : Nat
deriving DecidableEq

/-- The `recipeData` object passed to `Recipe.create` / `Recipe.update`.
`none` models an absent (`undefined`/`null`) field. -/
structure RecipeData where
  title : String
  time : Option String := none
  servings : Option Int := none
  category : Option String := none
  source_url : Option String := none
  image_url : Option String := none
  image_path : Option String := none
  ingredients : Option (List String) := none
  steps : Option (List String) := none
  notes : Option String := none
  is_scraped : Option Bool := none
deriving DecidableEq

/-- The recipe object returned to callers of the model: the row with the
JSON fields parsed back and `is_scraped` converted by `Boolean(...)`. -/
structure RecipeView where
  id : String
  user_id : Nat
  title : String
  time : Option String
  servings : Int
  category : Option String
  source_url : Option String
  image_url : Option String
  image_path : Option String
  ingredients : List String
  steps : List String
  notes : Option String
  is_scraped : Bool
  created_at : Nat
  updated_at : Nat
deriving DecidableEq

/-- The row-to-object conversion applied by every read operation:
`JSON.parse` on `ingredients`/`steps` (identity here) and
`Boolean(r.is_scraped)`. -/
def rowToRecipe (r : RecipeRow) : RecipeView :=
  { id := r.id, user_id := r.user_id, title := r.title, time := r.time
    servings := r.servings, category := r.category
    source_url := r.source_url, image_url := r.image_url
    image_path := r.image_path, ingredients := r.ingredients
    steps := r.steps, notes := r.notes
    is_scraped := r.is_scraped != 0
    created_at := r.created_at, updated_at := r.updated_at }

/-- The order `ORDER BY created_at DESC`: newest (largest timestamp)
first. -/
def newestFirst (a b : RecipeRow) : Prop :=
  b.created_at ≤ a.created_at

instance : DecidableRel newestFirst :=
  fun a b => Nat.decLe b.created_at a.created_at

instance : IsTotal RecipeRow newestFirst :=
  ⟨fun a b => Nat.le_total b.created_at a.created_at⟩

instance : IsTrans RecipeRow newestFirst :=
  ⟨fun _ _ _ h1 h2 => Nat.le_trans h2 h1⟩

/-- One token of a SQLite `LIKE` pattern: `%` (any sequence), `_` (any
single character), or a literal character. -/
inductive LikeTok where
  | any : LikeTok
  | one : LikeTok
  | lit : Char → LikeTok
deriving DecidableEq

/-- Reading a `LIKE` pattern string as tokens. -/
def toPat (cs : List Char) : List LikeTok :=
  cs.map fun c => if c = '%' then .any else if c = '_' then .one else .lit c

/-- SQLite `LIKE` compares characters case-insensitively (ASCII case
folding, which is exactly what `Char.toLower` performs). -/
def charEqCI (c d : Char) : Bool :=
  c.toLower == d.toLower

/-- Semantics of SQLite `LIKE`: `%` matches when some suffix of the
string matches the rest of the pattern, `_` consumes one character,
and literals compare case-insensitively. -/
def likeMatch : List LikeTok → List Char → Bool
  | [], s => s.isEmpty
  | .any :: ps, s => s.tails.any fun t => likeMatch ps t
  | .one :: ps, s =>
    match s with
    | [] => false
    | _ :: s' => likeMatch ps s'
  | .lit c :: ps, s =>
    match s with
    | [] => false
    | d :: s' => charEqCI c d && likeMatch ps s'

/-- The filter `title LIKE '%' || q || '%'` used by `Recipe.search`. -/
def sqlLikeTitle (q title : String) : Bool :=
  likeMatch (toPat ('%' :: (q.data ++ ['%']))) title.data

namespace Recipe

/-- The row built by `Recipe.create`'s `INSERT`: falsy defaulting on the
optional fields, `JSON.stringify(x || [])` on the sequences,
`is_scraped ? 1 : 0`, and both timestamps set by `unixepoch()`. -/
def newRow (userId : Nat) (d : RecipeData) (id : String) (now : Nat) : RecipeRow :=
  { id := id, user_id := userId, title := d.title
    time := jsTextOrNull d.time
    servings := jsServingsOr2 d.servings
    category := jsTextOrNull d.category
    source_url := jsTextOrNull d.source_url
    image_url := jsTextOrNull d.image_url
    image_path := jsTextOrNull d.image_path
    ingredients := d.ingredients.getD []
    steps := d.steps.getD []
    notes := jsTextOrNull d.notes
    is_scraped := if d.is_scraped.getD false then 1 else 0
    created_at := now, updated_at := now }

/-- `Recipe.create(userId, recipeData)`: `INSERT INTO recipes ...` with
the freshly generated UUID `id` passed explicitly (the source returns
this id to the caller). -/
def create (db : DB) (userId : Nat) (d : RecipeData) (id : String) : DB :=
  { db with recipes := db.recipes ++ [newRow userId d id db.now] }

/-- `Recipe.findByUserId`: `SELECT * FROM recipes WHERE user_id = ?
ORDER BY created_at DESC`, JSON fields parsed on the way out. -/
def findByUserId (db : DB) (userId : Nat) : List RecipeView :=
  (((db.recipes.filter fun r => r.user_id == userId).insertionSort
      newestFirst).map rowToRecipe)

/-- `Recipe.findById`: `SELECT * FROM recipes WHERE id = ? AND
user_id = ?`, returning `undefined` (`none`) when no row matches. -/
def findById (db : DB) (id : String) (userId : Nat) : Option RecipeView :=
  (db.recipes.find? fun r => r.id == id && r.user_id == userId).map rowToRecipe

/-- The field replacement performed by `Recipe.update`'s `UPDATE ...
SET`: every mutable column is overwritten (with the same falsy
defaulting as `create`) and `updated_at = unixepoch()`; `id`,
`user_id`, `created_at` and `is_scraped` are not in the SET list. -/
def applyUpdate (d : RecipeData) (now : Nat) (r : RecipeRow) : RecipeRow :=
  { r with
    title := d.title
    time := jsTextOrNull d.time
    servings := jsServingsOr2 d.servings
    category := jsTextOrNull d.category
    source_url := jsTextOrNull d.source_url
    image_url := jsTextOrNull d.image_url
    image_path := jsTextOrNull d.image_path
    ingredients := d.ingredients.getD []
    steps := d.steps.getD []
    notes := jsTextOrNull d.notes
    updated_at := now }

/-- `Recipe.update(id, userId, recipeData)`: `UPDATE recipes SET ...
WHERE id = ? AND user_id = ?`; returns `result.changes > 0`. -/
def update (db : DB) (id : String) (userId : Nat) (d : RecipeData) : DB × Bool :=
  ({ db with recipes := db.recipes.map fun r =>
      if r.id == id && r.user_id == userId then applyUpdate d db.now r else r },
   db.recipes.any fun r => r.id == id && r.user_id == userId)

/-- `Recipe.delete(id, userId)`: `DELETE FROM recipes WHERE id = ? AND
user_id = ?`; returns `result.changes > 0`. -/
def delete (db : DB) (id : String) (userId : Nat) : DB × Bool :=
  ({ db with recipes := db.recipes.filter fun r =>
      !(r.id == id && r.user_id == userId) },
   db.recipes.any fun r => r.id == id && r.user_id == userId)

/-- `Recipe.search(userId, query)`: `SELECT * FROM recipes WHERE
user_id = ? AND title LIKE ? ORDER BY created_at DESC` with the bound
pattern `%query%`. -/
def search (db : DB) (userId : Nat) (q : String) : List RecipeView :=
  (((db.recipes.filter fun r =>
      r.user_id == userId && sqlLikeTitle q r.title).insertionSort
      newestFirst).map rowToRecipe)

/-- `Recipe.findByCategory(userId, category)`: exact match on the
`category` column, newest first. -/
def findByCategory (db : DB) (userId : Nat) (category : String) : List RecipeView :=
  (((db.recipes.filter fun r =>
      r.user_id == userId && r.category == some category).insertionSort
      newestFirst).map rowToRecipe)

end Recipe

/-- The SQLite error codes distinguished by this code base:
`SQLITE_CONSTRAINT_UNIQUE` (duplicate favorite pair) and
`SQLITE_CONSTRAINT_FOREIGNKEY` (user or recipe does not exist). -/
inductive SqliteError where
  | constraintUnique : SqliteError
  | constraintForeignKey : SqliteError
deriving DecidableEq

namespace Favorite

/-- The raw `INSERT INTO favorites (user_id, recipe_id) VALUES (?, ?)`:
the `UNIQUE(user_id, recipe_id)` index rejects a duplicate pair, and
the foreign keys on `user_id`/`recipe_id` reject references to missing
rows (surfacing as a thrown error in `better-sqlite3`). -/
def insertFavorite (db : DB) (userId : Nat) (recipeId : String) :
    Except SqliteError DB :=
  if db.favorites.any fun f => f.user_id == userId && f.recipe_id == recipeId then
    .error .constraintUnique
  else if (db.users.any fun u => u.id == userId) &&
      (db.recipes.any fun r => r.id == recipeId) then
    .ok { db with favorites :=
      db.favorites ++ [⟨userId, recipeId, db.now⟩] }
  else
    .error .constraintForeignKey

/-- `Favorite.add(userId, recipeId)`: runs the insert inside
`try/catch`; a `SQLITE_CONSTRAINT_UNIQUE` failure is absorbed into a
`false` return (already favorited), every other error is rethrown. -/
def add (db : DB) (userId : Nat) (recipeId : String) :
    Except SqliteError (DB × Bool) :=
  match insertFavorite db userId recipeId with
  | .ok db' => .ok (db', true)
  | .error .constraintUnique => .ok (db, false)
  | .error e => .error e

/-- `Favorite.remove(userId, recipeId)`: `DELETE FROM favorites WHERE
user_id = ? AND recipe_id = ?`; returns `result.changes > 0`. -/
def remove (db : DB) (userId : Nat) (recipeId : String) : DB × Bool :=
  ({ db with favorites := db.favorites.filter fun f =>
      !(f.user_id == userId && f.recipe_id == recipeId) },
   db.favorites.any fun f => f.user_id == userId && f.recipe_id == recipeId)

/-- `Favorite.isFavorited(userId, recipeId)`: `SELECT 1 FROM favorites
WHERE user_id = ? AND recipe_id = ?`, coerced with `!!`. -/
def isFavorited (db : DB) (userId : Nat) (recipeId : String) : Bool :=
  db.favorites.any fun f => f.user_id == userId && f.recipe_id == recipeId

end Favorite

namespace User

/-- `User.findByEmail(email)`: `SELECT * FROM users WHERE email = ?`. -/
def findByEmail (db : DB) (email : String) : Option UserRow :=
  db.users.find? fun u => u.email == email

/-- `User.findById(id)`: `SELECT * FROM users WHERE id = ?`. -/
def findById (db : DB) (id : Nat) : Option UserRow :=
  db.users.find? fun u => u.id == id

/-- `User.updateActivity(id)`: `UPDATE users SET updated_at =
unixepoch() WHERE id = ?`. -/
def updateActivity (db : DB) (id : Nat) : DB :=
  { db with users := db.users.map fun u =>
      if u.id == id then { u with updated_at := db.now } else u }

end User

/-- Shape of the JSON responses produced by the request handlers: an
HTTP status plus the `error`/`message` fields, and the `favorited` flag
returned by the toggle endpoint. -/
structure ApiResponse where
  status : Nat
  error : Option String := none
  message : Option String := none
  favorited : Option Bool := none
deriving DecidableEq

/-- The 401 body sent by `requireAuth`. -/
def unauthorizedResponse : ApiResponse :=
  { status := 401
    error := some "Authentication required"
    message := some "You must be logged in to access this resource" }

/-- The single 401 body used by `login` for both an unknown email and a
wrong password. -/
def invalidCredentialsResponse : ApiResponse :=
  { status := 401
    error := some "Invalid credentials"
    message := some "Incorrect email or password" }

/-- Success body of `login`. -/
def loginSuccessResponse : ApiResponse :=
  { status := 200, message := some "Login successful" }

/-- Generic 200 body for list endpoints. -/
def okResponse : ApiResponse :=
  { status := 200 }

/-- The 404 body shared by the not-found and not-owned cases of the
recipe endpoints. -/
def recipeNotFoundResponse : ApiResponse :=
  { status := 404, error := some "Recipe not found" }

/-- The 400 body for a toggle request without a `recipeId`. -/
def missingRecipeIdResponse : ApiResponse :=
  { status := 400, error := some "Recipe ID is required" }

/-- The 400 body produced by the validation middleware chain. -/
def validationFailedResponse : ApiResponse :=
  { status := 400, error := some "Validation failed" }

/-- The 201 body of a successful recipe creation. -/
def recipeCreatedResponse : ApiResponse :=
  { status := 201, message := some "Recipe created successfully" }

/-- The 200 body of a successful recipe update. -/
def recipeUpdatedResponse : ApiResponse :=
  { status := 200, message := some "Recipe updated successfully" }

/-- The 200 body of a successful recipe deletion. -/
def recipeDeletedResponse : ApiResponse :=
  { status := 200, message := some "Recipe deleted successfully" }

/-- Toggle endpoint body after removing a favorite. -/
def favoriteRemovedResponse : ApiResponse :=
  { status := 200, favorited := some false
    message := some "Recipe removed from favorites" }

/-- Toggle endpoint body after adding a favorite. -/
def favoriteAddedResponse : ApiResponse :=
  { status := 200, favorited := some true
    message := some "Recipe added to favorites" }

/-- The 500 body of the toggle endpoint's catch-all handler. -/
def toggleFailedResponse : ApiResponse :=
  { status := 500, error := some "Failed to toggle favorite" }

/-- The middleware `requireAuth`: a request whose session carries no
`userId` is answered with the 401 body and the handler chain stops;
otherwise control proceeds with the session's user id.  (User ids come
from `AUTOINCREMENT` and are never the falsy `0`.) -/
def requireAuth (session : Option Nat) : Except ApiResponse Nat :=
  match session with
  | none => .error unauthorizedResponse
  | some userId => .ok userId

/-- The `login` controller body (after the field-format validation
middleware): look up by email, then check the password; both failure
causes return the same 401 object.  `verify` is a parameter standing
for `bcrypt.compareSync` against the stored hash. -/
def login (verify : UserRow → String → Bool) (db : DB)
    (email password : String) : DB × ApiResponse :=
  match User.findByEmail db email with
  | none => (db, invalidCredentialsResponse)
  | some u =>
    if verify u password then
      (User.updateActivity db u.id, loginSuccessResponse)
    else
      (db, invalidCredentialsResponse)

/-- The `toggleFavorite` controller: reject a falsy `recipeId` with
400, otherwise remove the favorite when `isFavorited` and add it
otherwise; an error thrown by `Favorite.add` is caught and answered
with 500, leaving the store untouched. -/
def toggleFavorite (db : DB) (userId : Nat) (recipeId : String) :
    DB × ApiResponse :=
  if recipeId = "" then (db, missingRecipeIdResponse)
  else if Favorite.isFavorited db userId recipeId then
    ((Favorite.remove db userId recipeId).1, favoriteRemovedResponse)
  else
    match Favorite.add db userId recipeId with
    | .ok (db', _) => (db', favoriteAddedResponse)
    | .error _ => (db, toggleFailedResponse)

/-- Names of the model (access-component) operations, used to record
which data accesses a request performed. -/
inductive ModelOp where
  | recipeFindByUserId : ModelOp
  | recipeFindById : ModelOp
  | recipeCreate : ModelOp
  | recipeUpdate : ModelOp
  | recipeDelete : ModelOp
  | recipeSearch : ModelOp
  | favoriteIsFavorited : ModelOp
  | favoriteAdd : ModelOp
  | favoriteRemove : ModelOp
  | favoriteGetIds : ModelOp
  | favoriteGetRecipes : ModelOp
deriving DecidableEq

/-- The routes of the recipe router.  For `POST /api/recipes` the UUID
generated by `randomUUID()` inside `Recipe.create` is carried as an
explicit argument. -/
inductive RecipeRoute where
  | list : RecipeRoute
  | search : Option String → RecipeRoute
  | get : String → RecipeRoute
  | create : RecipeData → String → RecipeRoute
  | update : String → RecipeData → RecipeRoute
  | del : String → RecipeRoute
deriving DecidableEq

/-- The routes of the favorites router; the toggle body's `recipeId`
may be absent. -/
inductive FavoriteRoute where
  | toggle : Option String → FavoriteRoute
  | list : FavoriteRoute
  | listRecipes : FavoriteRoute
deriving DecidableEq

/-- The title validation shared by `createRecipe` and `updateRecipe`:
`body("title").trim().notEmpty()` and `isLength({ max: 200 })`.  (The
validators on the optional fields are elided: no claim depends on
them, and they only add further 400 outcomes on the authenticated
path.) -/
def titleValid (title : String) : Bool :=
  !(title.trim == "") && title.length ≤ 200

/-- The recipe controllers, dispatched after `requireAuth` has
succeeded; each result records the store, the response, and the model
operations performed. -/
def recipeDispatch (db : DB) (userId : Nat) :
    RecipeRoute → DB × ApiResponse × List ModelOp
  | .list => (db, okResponse, [.recipeFindByUserId])
  | .search _ => (db, okResponse, [.recipeSearch])
  | .get id =>
    match Recipe.findById db id userId with
    | none => (db, recipeNotFoundResponse, [.recipeFindById])
    | some _ => (db, okResponse, [.recipeFindById])
  | .create d newId =>
    if titleValid d.title then
      (Recipe.create db userId d newId, recipeCreatedResponse, [.recipeCreate])
    else
      (db, validationFailedResponse, [])
  | .update id d =>
    if titleValid d.title then
      match Recipe.update db id userId d with
      | (db', true) => (db', recipeUpdatedResponse, [.recipeUpdate])
      | (_, false) => (db, recipeNotFoundResponse, [.recipeUpdate])
    else
      (db, validationFailedResponse, [])
  | .del id =>
    match Recipe.delete db id userId with
    | (db', true) => (db', recipeDeletedResponse, [.recipeDelete])
    | (_, false) => (db, recipeNotFoundResponse, [.recipeDelete])

/-- The favorite controllers, dispatched after `requireAuth`. -/
def favoriteDispatch (db : DB) (userId : Nat) :
    FavoriteRoute → DB × ApiResponse × List ModelOp
  | .toggle rid =>
    match rid with
    | none => (db, missingRecipeIdResponse, [])
    | some r =>
      if r = "" then (db, missingRecipeIdResponse, [])
      else if Favorite.isFavorited db userId r then
        ((Favorite.remove db userId r).1, favoriteRemovedResponse,
          [.favoriteIsFavorited, .favoriteRemove])
      else
        match Favorite.add db userId r with
        | .ok (db', _) =>
          (db', favoriteAddedResponse, [.favoriteIsFavorited, .favoriteAdd])
        | .error _ =>
          (db, toggleFailedResponse, [.favoriteIsFavorited, .favoriteAdd])
  | .list => (db, okResponse, [.favoriteGetIds])
  | .listRecipes => (db, okResponse, [.favoriteGetRecipes])

/-- The recipe router: `router.use(requireAuth)` ahead of every recipe
route. -/
def recipesRouter (db : DB) (session : Option Nat) (rt : RecipeRoute) :
    DB × ApiResponse × List ModelOp :=
  match requireAuth session with
  | .error resp => (db, resp, [])
  | .ok userId => recipeDispatch db userId rt

/-- The favorites router: `router.use(requireAuth)` ahead of every
favorite route. -/
def favoritesRouter (db : DB) (session : Option Nat) (rt : FavoriteRoute) :
    DB × ApiResponse × List ModelOp :=
  match requireAuth session with
  | .error resp => (db, resp, [])
  | .ok userId => favoriteDispatch db userId rt

/-- Specification-side predicate (from the spec's words, for the search
refinement): the query occurs in the title as a case-insensitive
substring. -/
def titleContainsCI (q title : String) : Prop :=
  q.data.map Char.toLower <:+: title.data.map Char.toLower

instance (q title : String) : Decidable (titleContainsCI q title) :=
  List.decidableInfix _ _

/-- Foreign-key consistency of the store: every favorite references an
existing user and an existing recipe (SQLite enforces this through the
two foreign keys with cascade delete). -/
def Consistent (db : DB) : Prop :=
  ∀ f ∈ db.favorites,
    (∃ u ∈ db.users, u.id = f.user_id) ∧ (∃ r ∈ db.recipes, r.id = f.recipe_id)

instance (db : DB) : Decidable (Consistent db) := by
  unfold Consistent
  infer_instance

/-- The shape every stored recipe row gets from the falsy defaulting in
`create`/`update`: `servings` is never `0` and no optional text field
is the empty string. -/
def GoodRow (r : RecipeRow) : Prop :=
  r.servings ≠ 0 ∧ r.time ≠ some "" ∧ r.category ≠ some "" ∧
    r.source_url ≠ some "" ∧ r.image_url ≠ some "" ∧
    r.image_path ≠ some "" ∧ r.notes ≠ some ""

/-- Concrete user row used by the witnesses. -/
def demoUser (id : Nat) (email : String) : UserRow :=
  { id := id, name := "Ann", email := email, password_hash := "h1"
    created_at := 1, updated_at := 1 }

/-- Concrete recipe row used by the witnesses. -/
def demoRecipe (id : String) (userId : Nat) (title : String)
    (created : Nat) : RecipeRow :=
  { id := id, user_id := userId, title := title, time := none
    servings := 2, category := none, source_url := none
    image_url := none, image_path := none, ingredients := []
    steps := [], notes := none, is_scraped := 0
    created_at := created, updated_at := created }

/-- Concrete store used by the witnesses: one user owning one recipe. -/
def demoDB : DB :=
  { users := [demoUser 1 "ann@x.com"]
    recipes := [demoRecipe "r1" 1 "Soup" 5]
    favorites := []
    now := 10 }

theorem beq_pair_false_of_owner {r : RecipeRow} {id : String} {A B : Nat}
    (h1 : r.id = id → r.user_id = A) (hBA : B ≠ A) :
    (r.id == id && r.user_id == B) = false := by
  by_cases hid : r.id = id
  · have : r.user_id ≠ B := fun hB => hBA (hB.symm.trans (h1 hid))
    simp [hid, this]
  · simp [hid]

/-- C1: a recipe owned by account `A` is invisible to any other account
`B`: `findById` answers `none`, exactly as it does for an id that is
present in no row at all. -/
theorem findById_not_owned_eq_not_found (db : DB) (id : String) (A B : Nat)
    (hOwn : ∀ r ∈ db.recipes, r.id = id → r.user_id = A) (hBA : B ≠ A) :
    Recipe.findById db id B = none ∧
    ∀ id', (∀ r ∈ db.recipes, r.id ≠ id') → Recipe.findById db id' B = none := by
  constructor
  · simp only [Recipe.findById, Option.map_eq_none', List.find?_eq_none]
    intro r hr hp
    rw [beq_pair_false_of_owner (hOwn r hr) hBA] at hp
    exact absurd hp (by simp)
  · intro id' hid'
    simp only [Recipe.findById, Option.map_eq_none', List.find?_eq_none]
    intro r hr hp
    have : (r.id == id') = false := by simp [hid' r hr]
    rw [this, Bool.false_and] at hp
    exact absurd hp (by simp)

theorem findById_not_owned_eq_not_found_witness :
    Recipe.findById demoDB "r1" 2 = none ∧
    Recipe.findById demoDB "zzz" 2 = none := by
  have h := findById_not_owned_eq_not_found demoDB "r1" 1 2
    (by decide) (by decide)
  exact ⟨h.1, h.2 "zzz" (by decide)⟩

/-- C2: a request to any recipe or favorite route without a session is
answered by `requireAuth` with the 401 authentication-required body,
the store is untouched, and no model operation runs. -/
theorem unauthenticated_request_rejected_before_data_access
    (db : DB) (rt : RecipeRoute) (frt : FavoriteRoute) :
    recipesRouter db none rt = (db, unauthorizedResponse, []) ∧
    favoritesRouter db none frt = (db, unauthorizedResponse, []) ∧
    unauthorizedResponse.status = 401 :=
  ⟨rfl, rfl, rfl⟩

/-- C3: `update` and `delete` aimed at a recipe owned by a different
account both return `false` and leave the store exactly as it was. -/
theorem update_delete_wrong_owner_noop (db : DB) (id : String) (A B : Nat)
    (d : RecipeData)
    (hOwn : ∀ r ∈ db.recipes, r.id = id → r.user_id = A) (hBA : B ≠ A) :
    Recipe.update db id B d = (db, false) ∧
    Recipe.delete db id B = (db, false) := by
  have hno : ∀ r ∈ db.recipes, (r.id == id && r.user_id == B) = false :=
    fun r hr => beq_pair_false_of_owner (hOwn r hr) hBA
  have hmap : (db.recipes.map fun r =>
      if r.id == id && r.user_id == B then Recipe.applyUpdate d db.now r else r) =
      db.recipes := by
    rw [List.map_congr_left (g := fun r => r), List.map_id']
    intro r hr
    rw [hno r hr]
    simp
  have hany : (db.recipes.any fun r => r.id == id && r.user_id == B) = false := by
    rw [List.any_eq_false]
    intro r hr
    simp [hno r hr]
  have hfilter : (db.recipes.filter fun r =>
      !(r.id == id && r.user_id == B)) = db.recipes := by
    rw [List.filter_eq_self]
    intro r hr
    simp [hno r hr]
  constructor
  · simp only [Recipe.update, hmap, hany]
  · simp only [Recipe.delete, hfilter, hany]

theorem update_delete_wrong_owner_noop_witness :
    Recipe.update demoDB "r1" 2 { title := "X" } = (demoDB, false) ∧
    Recipe.delete demoDB "r1" 2 = (demoDB, false) :=
  update_delete_wrong_owner_noop demoDB "r1" 1 2 { title := "X" }
    (by decide) (by decide)

/-- C8: both causes of a login failure, unknown email and wrong
password, are answered with one and the same 401 invalid-credentials
body (and an unchanged store), so the two causes cannot be told apart
from the response. -/
theorem login_failures_indistinguishable (verify : UserRow → String → Bool)
    (db : DB) (email password : String) :
    (User.findByEmail db email = none →
      login verify db email password = (db, invalidCredentialsResponse)) ∧
    (∀ u, User.findByEmail db email = some u → verify u password = false →
      login verify db email password = (db, invalidCredentialsResponse)) := by
  constructor
  · intro h
    simp [login, h]
  · intro u hu hv
    simp [login, hu, hv]

theorem login_failures_indistinguishable_witness :
    login (fun _ _ => false) demoDB "bob@x.com" "pw" =
      (demoDB, invalidCredentialsResponse) ∧
    login (fun _ _ => false) demoDB "ann@x.com" "pw" =
      (demoDB, invalidCredentialsResponse) := by
  constructor
  · exact (login_failures_indistinguishable (fun _ _ => false) demoDB
      "bob@x.com" "pw").1 (by decide)
  · exact (login_failures_indistinguishable (fun _ _ => false) demoDB
      "ann@x.com" "pw").2 (demoUser 1 "ann@x.com") (by decide) rfl

/-- Store with the demo pair already favorited, for the witnesses. -/
def demoDBFav : DB :=
  { demoDB with favorites := [⟨1, "r1", 6⟩] }

theorem insertFavorite_ok (db : DB) (u : Nat) (r : String)
    (hnew : Favorite.isFavorited db u r = false)
    (hu : (db.users.any fun x => x.id == u) = true)
    (hr : (db.recipes.any fun x => x.id == r) = true) :
    Favorite.insertFavorite db u r =
      .ok { db with favorites := db.favorites ++ [⟨u, r, db.now⟩] } := by
  simp only [Favorite.isFavorited] at hnew
  simp [Favorite.insertFavorite, hnew, hu, hr]

theorem add_ok_of_not_favorited (db : DB) (u : Nat) (r : String)
    (hnew : Favorite.isFavorited db u r = false)
    (hu : (db.users.any fun x => x.id == u) = true)
    (hr : (db.recipes.any fun x => x.id == r) = true) :
    Favorite.add db u r =
      .ok ({ db with favorites := db.favorites ++ [⟨u, r, db.now⟩] }, true) := by
  simp [Favorite.add, insertFavorite_ok db u r hnew hu hr]

theorem add_noop_of_favorited (db : DB) (u : Nat) (r : String)
    (hfav : Favorite.isFavorited db u r = true) :
    Favorite.add db u r = .ok (db, false) := by
  simp only [Favorite.isFavorited] at hfav
  simp [Favorite.add, Favorite.insertFavorite, hfav]

theorem isFavorited_remove (db : DB) (u : Nat) (r : String) :
    Favorite.isFavorited (Favorite.remove db u r).1 u r = false := by
  rw [Favorite.isFavorited, List.any_eq_false]
  intro f hf
  have h3 := (List.mem_filter.mp hf).2
  simp only [Bool.not_eq_true'] at h3
  simp [h3]

theorem isFavorited_append_pair (db : DB) (u : Nat) (r : String) (t : Nat) :
    Favorite.isFavorited
      { db with favorites := db.favorites ++ [⟨u, r, t⟩] } u r = true := by
  simp [Favorite.isFavorited]

/-- C7: `Favorite.add` inserts and returns `true` when the pair is
absent (and both foreign keys resolve), returns `false` without an
error when the pair already exists (the unique-constraint rejection is
absorbed), and propagates a foreign-key violation, which is not the
unique-constraint error. -/
theorem favorite_add_contract (db : DB) (u : Nat) (r : String) :
    (Favorite.isFavorited db u r = false →
      (db.users.any fun x => x.id == u) = true →
      (db.recipes.any fun x => x.id == r) = true →
      Favorite.add db u r =
        .ok ({ db with favorites := db.favorites ++ [⟨u, r, db.now⟩] }, true)) ∧
    (Favorite.isFavorited db u r = true →
      Favorite.add db u r = .ok (db, false)) ∧
    (Favorite.isFavorited db u r = false →
      (db.recipes.any fun x => x.id == r) = false →
      Favorite.add db u r = .error .constraintForeignKey) := by
  refine ⟨add_ok_of_not_favorited db u r, add_noop_of_favorited db u r, ?_⟩
  intro hnew hfk
  simp only [Favorite.isFavorited] at hnew
  simp [Favorite.add, Favorite.insertFavorite, hnew, hfk]

theorem favorite_add_contract_witness :
    Favorite.add demoDB 1 "r1" =
      .ok ({ demoDB with favorites := [⟨1, "r1", 10⟩] }, true) ∧
    Favorite.add demoDBFav 1 "r1" = .ok (demoDBFav, false) ∧
    Favorite.add demoDB 1 "zzz" = .error .constraintForeignKey := by
  refine ⟨?_, ?_, ?_⟩
  · exact (favorite_add_contract demoDB 1 "r1").1 (by decide) (by decide)
      (by decide)
  · exact (favorite_add_contract demoDBFav 1 "r1").2.1 (by decide)
  · exact (favorite_add_contract demoDB 1 "zzz").2.2 (by decide) (by decide)

/-- C6: for an existing account and an existing recipe, the first
toggle flips the favorited flag and the second toggle flips it back,
so after two toggles the flag equals what it was before the first
call. -/
theorem toggle_twice_restores_favorited (db : DB) (u : Nat) (r : String)
    (hu : ∃ x ∈ db.users, x.id = u) (hre : ∃ x ∈ db.recipes, x.id = r)
    (hr0 : r ≠ "") :
    Favorite.isFavorited (toggleFavorite db u r).1 u r =
      !Favorite.isFavorited db u r ∧
    Favorite.isFavorited
      (toggleFavorite (toggleFavorite db u r).1 u r).1 u r =
      Favorite.isFavorited db u r := by
  obtain ⟨uu, huu, huid⟩ := hu
  obtain ⟨rr, hrr, hrid⟩ := hre
  have hu0 : (db.users.any fun x => x.id == u) = true :=
    List.any_eq_true.mpr ⟨uu, huu, by simp [huid]⟩
  have hre0 : (db.recipes.any fun x => x.id == r) = true :=
    List.any_eq_true.mpr ⟨rr, hrr, by simp [hrid]⟩
  by_cases hfav : Favorite.isFavorited db u r = true
  · have h1 : toggleFavorite db u r =
        ((Favorite.remove db u r).1, favoriteRemovedResponse) := by
      simp [toggleFavorite, hr0, hfav]
    set db1 := (Favorite.remove db u r).1 with hdb1
    have hnf : Favorite.isFavorited db1 u r = false := isFavorited_remove db u r
    have hu3 : (db1.users.any fun x => x.id == u) = true := hu0
    have hr3 : (db1.recipes.any fun x => x.id == r) = true := hre0
    have h2 : toggleFavorite db1 u r =
        ({ db1 with favorites := db1.favorites ++ [⟨u, r, db1.now⟩] },
          favoriteAddedResponse) := by
      simp [toggleFavorite, hr0, hnf, add_ok_of_not_favorited db1 u r hnf hu3 hr3]
    constructor
    · rw [h1]
      show Favorite.isFavorited db1 u r = !Favorite.isFavorited db u r
      rw [hnf, hfav]
      rfl
    · rw [h1]
      simp only [h2]
      rw [isFavorited_append_pair, hfav]
  · have hfav' : Favorite.isFavorited db u r = false := by simpa using hfav
    have h1 : toggleFavorite db u r =
        ({ db with favorites := db.favorites ++ [⟨u, r, db.now⟩] },
          favoriteAddedResponse) := by
      simp [toggleFavorite, hr0, hfav',
        add_ok_of_not_favorited db u r hfav' hu0 hre0]
    have hf1 : Favorite.isFavorited
        { db with favorites := db.favorites ++ [⟨u, r, db.now⟩] } u r = true :=
      isFavorited_append_pair db u r db.now
    have h2 : toggleFavorite
        { db with favorites := db.favorites ++ [⟨u, r, db.now⟩] } u r =
        ((Favorite.remove
          { db with favorites := db.favorites ++ [⟨u, r, db.now⟩] } u r).1,
          favoriteRemovedResponse) := by
      simp [toggleFavorite, hr0, hf1]
    constructor
    · rw [h1]
      show Favorite.isFavorited
        { db with favorites := db.favorites ++ [⟨u, r, db.now⟩] } u r =
        !Favorite.isFavorited db u r
      rw [hf1, hfav']
      rfl
    · rw [h1]
      simp only [h2]
      rw [isFavorited_remove, hfav']

theorem toggle_twice_restores_favorited_witness :
    Favorite.isFavorited (toggleFavorite demoDB 1 "r1").1 1 "r1" =
      !Favorite.isFavorited demoDB 1 "r1" ∧
    Favorite.isFavorited
      (toggleFavorite (toggleFavorite demoDB 1 "r1").1 1 "r1").1 1 "r1" =
      Favorite.isFavorited demoDB 1 "r1" :=
  toggle_twice_restores_favorited demoDB 1 "r1" (by decide) (by decide)
    (by decide)

/-- C4: after `create`, `getById` with the same account finds the new
recipe; its `ingredients`/`steps` equal the input sequences in order,
and omitted optional fields get their defaults (`servings = 2`, empty
sequences, `is_scraped = false`). -/
theorem create_then_getById_roundtrip (db : DB) (userId : Nat) (d : RecipeData)
    (id : String) (hfresh : ∀ r ∈ db.recipes, r.id ≠ id) :
    Recipe.findById (Recipe.create db userId d id) id userId =
      some (rowToRecipe (Recipe.newRow userId d id db.now)) ∧
    (rowToRecipe (Recipe.newRow userId d id db.now)).ingredients =
      d.ingredients.getD [] ∧
    (rowToRecipe (Recipe.newRow userId d id db.now)).steps = d.steps.getD [] ∧
    (∀ l, d.ingredients = some l →
      (rowToRecipe (Recipe.newRow userId d id db.now)).ingredients = l) ∧
    (∀ l, d.steps = some l →
      (rowToRecipe (Recipe.newRow userId d id db.now)).steps = l) ∧
    (d.servings = none →
      (rowToRecipe (Recipe.newRow userId d id db.now)).servings = 2) ∧
    (d.ingredients = none →
      (rowToRecipe (Recipe.newRow userId d id db.now)).ingredients = []) ∧
    (d.steps = none →
      (rowToRecipe (Recipe.newRow userId d id db.now)).steps = []) ∧
    (d.is_scraped = none →
      (rowToRecipe (Recipe.newRow userId d id db.now)).is_scraped = false) := by
  have hnone : (db.recipes.find? fun r =>
      r.id == id && r.user_id == userId) = none := by
    rw [List.find?_eq_none]
    intro r hr
    simp [hfresh r hr]
  have hp : ((Recipe.newRow userId d id db.now).id == id &&
      (Recipe.newRow userId d id db.now).user_id == userId) = true := by
    simp [Recipe.newRow]
  refine ⟨?_, rfl, rfl, ?_, ?_, ?_, ?_, ?_, ?_⟩
  · simp only [Recipe.findById, Recipe.create]
    rw [List.find?_append, hnone]
    have h1 : List.find? (fun r => r.id == id && r.user_id == userId)
        [Recipe.newRow userId d id db.now] =
        some (Recipe.newRow userId d id db.now) :=
      List.find?_cons_of_pos _ hp
    rw [Option.none_or, h1, Option.map_some']
  · intro l hl
    simp [rowToRecipe, Recipe.newRow, hl]
  · intro l hl
    simp [rowToRecipe, Recipe.newRow, hl]
  · intro h
    simp [rowToRecipe, Recipe.newRow, jsServingsOr2, h]
  · intro h
    simp [rowToRecipe, Recipe.newRow, h]
  · intro h
    simp [rowToRecipe, Recipe.newRow, h]
  · intro h
    simp [rowToRecipe, Recipe.newRow, h]

/-- Input with explicit sequences and omitted optional fields, for the
round-trip witness. -/
def dRound : RecipeData :=
  { title := "Stew", ingredients := some ["a", "b"], steps := some ["s1"] }

theorem create_then_getById_roundtrip_witness :
    Recipe.findById (Recipe.create demoDB 1 dRound "r2") "r2" 1 =
      some (rowToRecipe (Recipe.newRow 1 dRound "r2" demoDB.now)) ∧
    (rowToRecipe (Recipe.newRow 1 dRound "r2" demoDB.now)).ingredients =
      ["a", "b"] ∧
    (rowToRecipe (Recipe.newRow 1 dRound "r2" demoDB.now)).steps = ["s1"] ∧
    (rowToRecipe (Recipe.newRow 1 dRound "r2" demoDB.now)).servings = 2 ∧
    (rowToRecipe (Recipe.newRow 1 dRound "r2" demoDB.now)).is_scraped = false := by
  have h := create_then_getById_roundtrip demoDB 1 dRound "r2" (by decide)
  exact ⟨h.1, h.2.2.2.1 _ rfl, h.2.2.2.2.1 _ rfl, h.2.2.2.2.2.1 rfl,
    h.2.2.2.2.2.2.2.2 rfl⟩

/-- Counterexample to C9 as stated: a successful update with supplied
`servings = 0` stores `2`, not the supplied value, because the falsy
defaulting of `create` is applied again inside `update`. -/
theorem update_supplied_value_counterexample :
    (Recipe.update demoDB "r1" 1 { title := "X", servings := some 0 }).2 = true ∧
    (RecipeData.mk "X" none (some 0) none none none none none none none
      none).servings = some 0 ∧
    ∀ r ∈ (Recipe.update demoDB "r1" 1
      { title := "X", servings := some 0 }).1.recipes, r.servings = 2 := by
  decide

/-- C9 (amended): a successful update replaces exactly the mutable
fields with the supplied values after falsy normalization (falsy
`servings` becomes `2`, falsy text fields become `NULL`, absent
sequences become empty) and sets the update timestamp to the current
clock, while the key, owning account, creation timestamp and
`is_scraped` flag of the row are unchanged. -/
theorem update_replaces_mutable_fields_frame (db : DB) (id : String)
    (userId : Nat) (d : RecipeData) (r : RecipeRow) (hr : r ∈ db.recipes)
    (hid : r.id = id) (huid : r.user_id = userId) :
    (Recipe.update db id userId d).2 = true ∧
    Recipe.applyUpdate d db.now r ∈ (Recipe.update db id userId d).1.recipes ∧
    (Recipe.applyUpdate d db.now r).title = d.title ∧
    (Recipe.applyUpdate d db.now r).time = jsTextOrNull d.time ∧
    (Recipe.applyUpdate d db.now r).servings = jsServingsOr2 d.servings ∧
    (Recipe.applyUpdate d db.now r).category = jsTextOrNull d.category ∧
    (Recipe.applyUpdate d db.now r).source_url = jsTextOrNull d.source_url ∧
    (Recipe.applyUpdate d db.now r).image_url = jsTextOrNull d.image_url ∧
    (Recipe.applyUpdate d db.now r).image_path = jsTextOrNull d.image_path ∧
    (Recipe.applyUpdate d db.now r).ingredients = d.ingredients.getD [] ∧
    (Recipe.applyUpdate d db.now r).steps = d.steps.getD [] ∧
    (Recipe.applyUpdate d db.now r).notes = jsTextOrNull d.notes ∧
    (Recipe.applyUpdate d db.now r).updated_at = db.now ∧
    (Recipe.applyUpdate d db.now r).id = r.id ∧
    (Recipe.applyUpdate d db.now r).user_id = r.user_id ∧
    (Recipe.applyUpdate d db.now r).created_at = r.created_at ∧
    (Recipe.applyUpdate d db.now r).is_scraped = r.is_scraped := by
  have hpred : (r.id == id && r.user_id == userId) = true := by
    simp [hid, huid]
  refine ⟨List.any_eq_true.mpr ⟨r, hr, hpred⟩, ?_, rfl, rfl, rfl, rfl, rfl,
    rfl, rfl, rfl, rfl, rfl, rfl, rfl, rfl, rfl, rfl⟩
  have heq : (fun x => if x.id == id && x.user_id == userId then
      Recipe.applyUpdate d db.now x else x) r = Recipe.applyUpdate d db.now r := by
    simp [hpred]
  simp only [Recipe.update]
  exact heq ▸ List.mem_map_of_mem _ hr

theorem update_replaces_mutable_fields_frame_witness :
    (Recipe.update demoDB "r1" 1 { title := "New" }).2 = true ∧
    Recipe.applyUpdate { title := "New" } demoDB.now
        (demoRecipe "r1" 1 "Soup" 5) ∈
      (Recipe.update demoDB "r1" 1 { title := "New" }).1.recipes ∧
    (Recipe.applyUpdate { title := "New" } demoDB.now
      (demoRecipe "r1" 1 "Soup" 5)).created_at =
      (demoRecipe "r1" 1 "Soup" 5).created_at := by
  have h := update_replaces_mutable_fields_frame demoDB "r1" 1
    { title := "New" } (demoRecipe "r1" 1 "Soup" 5) (by decide) rfl rfl
  exact ⟨h.1, h.2.1, h.2.2.2.2.2.2.2.2.2.2.2.2.2.2.2.1⟩

theorem jsTextOrNull_ne_empty (v : Option String) : jsTextOrNull v ≠ some "" := by
  cases v with
  | none => simp [jsTextOrNull]
  | some s => by_cases h : s = "" <;> simp [jsTextOrNull, h]

theorem jsServingsOr2_ne_zero (v : Option Int) : jsServingsOr2 v ≠ 0 := by
  cases v with
  | none => simp [jsServingsOr2]
  | some n => by_cases h : n = 0 <;> simp [jsServingsOr2, h]

instance (r : RecipeRow) : Decidable (GoodRow r) := by
  unfold GoodRow
  infer_instance

theorem goodRow_newRow (userId : Nat) (d : RecipeData) (id : String)
    (now : Nat) : GoodRow (Recipe.newRow userId d id now) :=
  ⟨jsServingsOr2_ne_zero _, jsTextOrNull_ne_empty _, jsTextOrNull_ne_empty _,
    jsTextOrNull_ne_empty _, jsTextOrNull_ne_empty _, jsTextOrNull_ne_empty _,
    jsTextOrNull_ne_empty _⟩

theorem goodRow_applyUpdate (d : RecipeData) (now : Nat) (r : RecipeRow) :
    GoodRow (Recipe.applyUpdate d now r) :=
  ⟨jsServingsOr2_ne_zero _, jsTextOrNull_ne_empty _, jsTextOrNull_ne_empty _,
    jsTextOrNull_ne_empty _, jsTextOrNull_ne_empty _, jsTextOrNull_ne_empty _,
    jsTextOrNull_ne_empty _⟩

/-- C10: `create` and `update` default every falsy optional value, not
only absent ones: supplied `servings = 0` is stored as `2` and a
supplied empty string in any optional text field is stored as `NULL`;
consequently every row they write has nonzero `servings` and no
empty-string text field, and both operations preserve that shape of
the whole table. -/
theorem falsy_values_defaulted (db : DB) (userId : Nat) (d : RecipeData)
    (id : String) (now : Nat) (r : RecipeRow) :
    (d.servings = some 0 → (Recipe.newRow userId d id now).servings = 2 ∧
      (Recipe.applyUpdate d now r).servings = 2) ∧
    (d.time = some "" → (Recipe.newRow userId d id now).time = none ∧
      (Recipe.applyUpdate d now r).time = none) ∧
    (d.category = some "" → (Recipe.newRow userId d id now).category = none ∧
      (Recipe.applyUpdate d now r).category = none) ∧
    (d.source_url = some "" →
      (Recipe.newRow userId d id now).source_url = none ∧
      (Recipe.applyUpdate d now r).source_url = none) ∧
    (d.image_url = some "" → (Recipe.newRow userId d id now).image_url = none ∧
      (Recipe.applyUpdate d now r).image_url = none) ∧
    (d.image_path = some "" →
      (Recipe.newRow userId d id now).image_path = none ∧
      (Recipe.applyUpdate d now r).image_path = none) ∧
    (d.notes = some "" → (Recipe.newRow userId d id now).notes = none ∧
      (Recipe.applyUpdate d now r).notes = none) ∧
    GoodRow (Recipe.newRow userId d id now) ∧
    GoodRow (Recipe.applyUpdate d now r) ∧
    ((∀ x ∈ db.recipes, GoodRow x) →
      (∀ x ∈ (Recipe.create db userId d id).recipes, GoodRow x) ∧
      (∀ x ∈ (Recipe.update db id userId d).1.recipes, GoodRow x)) := by
  refine ⟨?_, ?_, ?_, ?_, ?_, ?_, ?_, goodRow_newRow userId d id now,
    goodRow_applyUpdate d now r, ?_⟩
  · intro h
    exact ⟨by simp [Recipe.newRow, jsServingsOr2, h],
      by simp [Recipe.applyUpdate, jsServingsOr2, h]⟩
  · intro h
    exact ⟨by simp [Recipe.newRow, jsTextOrNull, h],
      by simp [Recipe.applyUpdate, jsTextOrNull, h]⟩
  · intro h
    exact ⟨by simp [Recipe.newRow, jsTextOrNull, h],
      by simp [Recipe.applyUpdate, jsTextOrNull, h]⟩
  · intro h
    exact ⟨by simp [Recipe.newRow, jsTextOrNull, h],
      by simp [Recipe.applyUpdate, jsTextOrNull, h]⟩
  · intro h
    exact ⟨by simp [Recipe.newRow, jsTextOrNull, h],
      by simp [Recipe.applyUpdate, jsTextOrNull, h]⟩
  · intro h
    exact ⟨by simp [Recipe.newRow, jsTextOrNull, h],
      by simp [Recipe.applyUpdate, jsTextOrNull, h]⟩
  · intro h
    exact ⟨by simp [Recipe.newRow, jsTextOrNull, h],
      by simp [Recipe.applyUpdate, jsTextOrNull, h]⟩
  · intro hall
    constructor
    · intro x hx
      rcases List.mem_append.mp hx with hx1 | hx2
      · exact hall x hx1
      · rw [List.mem_singleton.mp hx2]
        exact goodRow_newRow userId d id db.now
    · intro x hx
      obtain ⟨y, hy, rfl⟩ := List.mem_map.mp hx
      by_cases hc : (y.id == id && y.user_id == userId) = true
      · simp only [hc, if_true]
        exact goodRow_applyUpdate d db.now y
      · simp only [Bool.not_eq_true] at hc
        simp only [hc, Bool.false_eq_true, if_false]
        exact hall y hy

/-- Input supplying falsy values for every optional field, for the
defaulting witness. -/
def dFalsy : RecipeData :=
  { title := "T", time := some "", servings := some 0, category := some ""
    source_url := some "", image_url := some "", image_path := some ""
    notes := some "" }

theorem falsy_values_defaulted_witness :
    (Recipe.newRow 1 dFalsy "r9" 7).servings = 2 ∧
    (Recipe.newRow 1 dFalsy "r9" 7).time = none ∧
    GoodRow (Recipe.newRow 1 dFalsy "r9" 7) ∧
    (∀ x ∈ (Recipe.create demoDB 1 dFalsy "r9").recipes, GoodRow x) := by
  have h := falsy_values_defaulted demoDB 1 dFalsy "r9" 7
    (demoRecipe "r1" 1 "Soup" 5)
  exact ⟨(h.1 rfl).1, (h.2.1 rfl).1, h.2.2.2.2.2.2.2.1,
    (h.2.2.2.2.2.2.2.2.2 (by decide)).1⟩

theorem likeMatch_any_iff (ps : List LikeTok) (s : List Char) :
    likeMatch (.any :: ps) s = true ↔ ∃ t, t <:+ s ∧ likeMatch ps t = true := by
  show (s.tails.any fun t => likeMatch ps t) = true ↔ _
  rw [List.any_eq_true]
  constructor
  · rintro ⟨t, ht, hm⟩
    exact ⟨t, (List.mem_tails t s).mp ht, hm⟩
  · rintro ⟨t, ht, hm⟩
    exact ⟨t, (List.mem_tails t s).mpr ht, hm⟩

theorem likeMatch_trailing_any (s : List Char) : likeMatch [.any] s = true := by
  rw [likeMatch_any_iff]
  exact ⟨[], List.nil_suffix, rfl⟩

theorem likeMatch_lits_append (q : List Char) (ps : List LikeTok) :
    ∀ s : List Char, likeMatch (q.map LikeTok.lit ++ ps) s = true ↔
      ∃ s1 s2, s = s1 ++ s2 ∧ s1.map Char.toLower = q.map Char.toLower ∧
        likeMatch ps s2 = true := by
  induction q with
  | nil =>
    intro s
    simp only [List.map_nil, List.nil_append]
    constructor
    · intro h
      exact ⟨[], s, rfl, rfl, h⟩
    · rintro ⟨s1, s2, rfl, h1, h2⟩
      have hs1 : s1 = [] := by simpa using h1
      simpa [hs1] using h2
  | cons c q ih =>
    intro s
    cases s with
    | nil =>
      simp only [List.map_cons, List.cons_append]
      constructor
      · intro h
        exact absurd h (by rw [likeMatch]; simp)
      · rintro ⟨s1, s2, heq, h1, h2⟩
        have hs1 : s1 = [] := by
          cases s1 with
          | nil => rfl
          | cons e t => exact absurd heq (by simp)
        rw [hs1] at h1
        exact absurd h1 (by simp)
    | cons d s' =>
      simp only [List.map_cons, List.cons_append]
      rw [show likeMatch (.lit c :: (q.map LikeTok.lit ++ ps)) (d :: s') =
        (charEqCI c d && likeMatch (q.map LikeTok.lit ++ ps) s') from rfl]
      rw [Bool.and_eq_true, ih s']
      constructor
      · rintro ⟨hcd, s1, s2, rfl, h1, h2⟩
        refine ⟨d :: s1, s2, rfl, ?_, h2⟩
        have hlow : c.toLower = d.toLower := by simpa [charEqCI] using hcd
        simp only [List.map_cons, h1, hlow]
      · rintro ⟨s1, s2, heq, h1, h2⟩
        cases s1 with
        | nil =>
          exact absurd h1 (by simp)
        | cons e s1' =>
          injection heq with h3 h4
          subst h3
          simp only [List.map_cons, List.cons.injEq] at h1
          refine ⟨?_, s1', s2, h4, h1.2, h2⟩
          simp [charEqCI, h1.1]

theorem likeMatch_contains_pattern (q s : List Char) :
    likeMatch (.any :: (q.map LikeTok.lit ++ [.any])) s = true ↔
      q.map Char.toLower <:+: s.map Char.toLower := by
  rw [likeMatch_any_iff]
  constructor
  · rintro ⟨t, ht, hm⟩
    obtain ⟨u, hu⟩ := ht
    obtain ⟨s1, s2, rfl, h1, _⟩ := (likeMatch_lits_append q [.any] t).mp hm
    refine ⟨u.map Char.toLower, s2.map Char.toLower, ?_⟩
    rw [← hu]
    simp [h1, List.map_append, List.append_assoc]
  · rintro ⟨a, b, hab⟩
    rw [List.append_assoc] at hab
    obtain ⟨u, rest, rfl, _, hrest⟩ := List.map_eq_append_iff.mp hab.symm
    obtain ⟨m, v, rfl, hm2, _⟩ := List.map_eq_append_iff.mp hrest
    refine ⟨m ++ v, ⟨u, rfl⟩, ?_⟩
    exact (likeMatch_lits_append q [.any] (m ++ v)).mpr
      ⟨m, v, rfl, hm2, likeMatch_trailing_any v⟩

theorem toPat_wildcard_free (q : List Char)
    (hq : ∀ c ∈ q, c ≠ '%' ∧ c ≠ '_') : toPat q = q.map LikeTok.lit := by
  unfold toPat
  exact List.map_congr_left fun c hc => by simp [(hq c hc).1, (hq c hc).2]

theorem toPat_search_pattern (q : String) :
    toPat ('%' :: (q.data ++ ['%'])) = .any :: (toPat q.data ++ [.any]) := by
  simp [toPat]

theorem sqlLikeTitle_iff_contains (q title : String)
    (hq : ∀ c ∈ q.data, c ≠ '%' ∧ c ≠ '_') :
    sqlLikeTitle q title = true ↔ titleContainsCI q title := by
  rw [sqlLikeTitle, toPat_search_pattern, toPat_wildcard_free q.data hq]
  exact likeMatch_contains_pattern q.data title.data

theorem sqlLikeTitle_empty (title : String) : sqlLikeTitle "" title = true := by
  rw [sqlLikeTitle]
  rw [show toPat ('%' :: (("" : String).data ++ ['%'])) = [.any, .any] from rfl]
  rw [likeMatch_any_iff]
  exact ⟨title.data, List.suffix_refl _, likeMatch_trailing_any _⟩

/-- Counterexample to C5 as stated: the query is interpolated into a
SQL `LIKE` pattern, so its wildcard characters keep their meaning; the
one-character query consisting of `_` matches the title `Soup` even
though it is not a substring of it. -/
theorem search_substring_counterexample :
    Recipe.search demoDB 1 "_" = [rowToRecipe (demoRecipe "r1" 1 "Soup" 5)] ∧
    ¬ titleContainsCI "_" "Soup" := by
  decide

/-- C5 (amended): for every query containing no `LIKE` wildcard (`%` or
`_`), `search` returns exactly the account's recipes whose title
contains the query as a case-insensitive substring, ordered newest
first; the empty query returns exactly `findByUserId`, and a query
matching no title returns the empty sequence. -/
theorem search_filters_titles_by_substring (db : DB) (userId : Nat) (q : String)
    (hq : ∀ c ∈ q.data, c ≠ '%' ∧ c ≠ '_') :
    (Recipe.search db userId q).Perm
      ((db.recipes.filter fun r =>
        r.user_id == userId && decide (titleContainsCI q r.title)).map
        rowToRecipe) ∧
    (Recipe.search db userId q).Pairwise
      (fun a b => b.created_at ≤ a.created_at) ∧
    Recipe.search db userId "" = Recipe.findByUserId db userId ∧
    ((∀ r ∈ db.recipes, r.user_id = userId → ¬ titleContainsCI q r.title) →
      Recipe.search db userId q = []) := by
  have hbool : ∀ t : String,
      sqlLikeTitle q t = decide (titleContainsCI q t) := by
    intro t
    by_cases hP : titleContainsCI q t
    · rw [(sqlLikeTitle_iff_contains q t hq).mpr hP, decide_eq_true hP]
    · have hne : sqlLikeTitle q t = false := by
        simpa using fun hh => hP ((sqlLikeTitle_iff_contains q t hq).mp hh)
      rw [hne, decide_eq_false hP]
  refine ⟨?_, ?_, ?_, ?_⟩
  · have hfe : (db.recipes.filter fun r =>
        r.user_id == userId && sqlLikeTitle q r.title) =
        (db.recipes.filter fun r =>
          r.user_id == userId && decide (titleContainsCI q r.title)) := by
      apply List.filter_congr
      intro r _
      rw [hbool]
    simp only [Recipe.search, hfe]
    exact (List.perm_insertionSort newestFirst _).map rowToRecipe
  · have hsorted := List.sorted_insertionSort newestFirst
      (db.recipes.filter fun r => r.user_id == userId && sqlLikeTitle q r.title)
    exact List.pairwise_map.mpr (hsorted.imp fun h => h)
  · have h0 : (fun r : RecipeRow =>
        r.user_id == userId && sqlLikeTitle "" r.title) =
        fun r : RecipeRow => r.user_id == userId :=
      funext fun r => by rw [sqlLikeTitle_empty, Bool.and_true]
    simp only [Recipe.search, Recipe.findByUserId, h0]
  · intro hno
    have hnil : (db.recipes.filter fun r =>
        r.user_id == userId && sqlLikeTitle q r.title) = [] := by
      rw [List.filter_eq_nil_iff]
      intro r hr hcontra
      simp only [Bool.and_eq_true, beq_iff_eq] at hcontra
      exact hno r hr hcontra.1
        ((sqlLikeTitle_iff_contains q r.title hq).mp hcontra.2)
    simp [Recipe.search, hnil]

/-- Store with several recipes of two accounts, for the search
witness. -/
def demoDB2 : DB :=
  { users := [demoUser 1 "ann@x.com", demoUser 2 "bob@x.com"]
    recipes := [demoRecipe "r1" 1 "Soup" 5, demoRecipe "r2" 1 "Stone soup" 8
      , demoRecipe "r3" 2 "Soup" 9]
    favorites := []
    now := 10 }

theorem search_filters_titles_by_substring_witness :
    (Recipe.search demoDB2 1 "so").Perm
      ((demoDB2.recipes.filter fun r =>
        r.user_id == 1 && decide (titleContainsCI "so" r.title)).map
        rowToRecipe) ∧
    (Recipe.search demoDB2 1 "so").Pairwise
      (fun a b => b.created_at ≤ a.created_at) ∧
    Recipe.search demoDB2 1 "" = Recipe.findByUserId demoDB2 1 ∧
    Recipe.search demoDB2 1 "zzz" = [] := by
  have h := search_filters_titles_by_substring demoDB2 1 "so" (by decide)
  have h2 := search_filters_titles_by_substring demoDB2 1 "zzz" (by decide)
  exact ⟨h.1, h.2.1, h.2.2.1, h2.2.2.2 (by decide)⟩

end RecipeApp
